import Mathlib

/-!
Verification development for the `mongo-request-handler` library
(src/main.ts, src/types.ts).

The library has two parts:
* `MongoDBRequest` — a mutable request descriptor with an `endpoint`,
  an accumulated `baseQuery`, a per-call `query`, and a derived
  `fullQuery` (the effective query);
* `createSendDBRequestFunction` — a factory closing over a
  `DatabaseConfig` and returning `sendDBRequest`, which validates a
  descriptor, issues one HTTP POST through the injected `fetch`
  primitive, and parses the JSON response or classifies the failure.

JavaScript objects are embedded as insertion-ordered association lists;
object spread `\x7b...a, ...b\x7d` is `mergeObj`; `JSON.stringify` is
`stringify`.  The transport (`fetch` plus `response.json()`) is a
parameter of `sendDBRequest`: a function from the URL and request
options to a `FetchOutcome` (rejection, or a response carrying a status
code and a JSON-parse result).  `sendDBRequest` returns the outcome,
the list of transport calls it made, and the descriptor state after the
call, so that error classification, the network trace and frame
conditions can all be stated.
-/

/-- JavaScript runtime values as used by the library: JSON-like data
(the `Query` type `Record<string, unknown>` of src/types.ts, with
objects as insertion-ordered key/value lists) plus `Error` objects,
which appear as thrown values of the transport and of JSON parsing. -/
inductive JSValue where
  | null : JSValue
  | bool (b : Bool) : JSValue
  | num (n : Int) : JSValue
  | str (s : String) : JSValue
  | arr (elems : List JSValue) : JSValue
  | obj (fields : List (String × JSValue)) : JSValue
  | error (name msg : String) : JSValue

/-- Whether a JavaScript value is a string (`typeof v === "string"`). -/
def JSValue.isString : JSValue → Bool
  | .str _ => true
  | _ => false

/-- JavaScript property read `o[k]` on the association-list
representation of an object: the first binding of the key, if any. -/
def lookupKey (o : List (String × JSValue)) (k : String) : Option JSValue :=
  (o.find? (fun p => p.1 == k)).map (fun p => p.2)

/-- Whether the object has a binding for the key (`k in o`). -/
def containsKey (o : List (String × JSValue)) (k : String) : Bool :=
  o.any (fun p => p.1 == k)

/-- JavaScript object spread `\x7b...a, ...b\x7d` (right-biased shallow
merge): every key keeps the position of its first occurrence, `b`'s
value wins on a key collision, and keys only in `b` are appended in
`b`'s order.  This is the merge used by the `baseQuery` setter, by
`fullQuery`, and by the body construction in `sendDBRequest`. -/
def mergeObj (a b : List (String × JSValue)) : List (String × JSValue) :=
  a.map (fun p =>
    match lookupKey b p.1 with
    | some v => (p.1, v)
    | none => p)
  ++ b.filter (fun p => ! containsKey a p.1)

/-- Escaping applied by `JSON.stringify` to string contents (the
characters relevant to this library: quote, backslash, newline). -/
def escapeJSONString (s : String) : String :=
  String.join (s.toList.map (fun c =>
    if c = '\"' then "\\\""
    else if c = '\\' then "\\\\"
    else if c = '\n' then "\\n"
    else String.singleton c))

mutual

/-- `JSON.stringify` on the embedded values.  An `Error` object has no
enumerable own properties, so it stringifies to `\x7b\x7d`. -/
def stringify : JSValue → String
  | .null => "null"
  | .bool true => "true"
  | .bool false => "false"
  | .num n => toString n
  | .str s => "\"" ++ escapeJSONString s ++ "\""
  | .arr xs => "[" ++ stringifyList xs ++ "]"
  | .obj fs => "\x7b" ++ stringifyFields fs ++ "\x7d"
  | .error _ _ => "\x7b\x7d"

/-- Comma-separated serialization of array elements. -/
def stringifyList : List JSValue → String
  | [] => ""
  | [x] => stringify x
  | x :: y :: xs => stringify x ++ "," ++ stringifyList (y :: xs)

/-- Comma-separated serialization of object fields. -/
def stringifyFields : List (String × JSValue) → String
  | [] => ""
  | [(k, v)] => "\"" ++ escapeJSONString k ++ "\":" ++ stringify v
  | (k, v) :: q :: fs =>
      "\"" ++ escapeJSONString k ++ "\":" ++ stringify v ++ ","
        ++ stringifyFields (q :: fs)

end

/-- The string a value interpolates to in a JavaScript template literal
(`String(v)`); an `Error` object converts to `name ++ ": " ++ message`. -/
def jsTemplateString : JSValue → String
  | .null => "null"
  | .bool true => "true"
  | .bool false => "false"
  | .num n => toString n
  | .str s => s
  | .arr _ => ""
  | .obj _ => "[object Object]"
  | .error name msg => name ++ ": " ++ msg

/- ### Key lemmas about the JS spread merge -/

theorem lookupKey_nil (k : String) : lookupKey [] k = none := rfl

theorem containsKey_nil (k : String) : containsKey [] k = false := rfl

theorem lookupKey_cons (p : String × JSValue) (t : List (String × JSValue))
    (k : String) :
    lookupKey (p :: t) k = if p.1 = k then some p.2 else lookupKey t k := by
  by_cases h : p.1 = k
  · have hb : (p.1 == k) = true := by simp [h]
    simp [lookupKey, List.find?, hb, h]
  · have hb : (p.1 == k) = false := by simp [h]
    simp [lookupKey, List.find?, hb, h]

theorem containsKey_cons (p : String × JSValue) (t : List (String × JSValue))
    (k : String) :
    containsKey (p :: t) k = (p.1 == k || containsKey t k) := by
  simp [containsKey]

theorem containsKey_eq_isSome_lookupKey (o : List (String × JSValue))
    (k : String) : containsKey o k = (lookupKey o k).isSome := by
  induction o with
  | nil => rfl
  | cons p t ih =>
      rw [containsKey_cons, lookupKey_cons]
      by_cases h : p.1 = k
      · simp [h]
      · simp [h, ih]

theorem lookupKey_append (x y : List (String × JSValue)) (k : String) :
    lookupKey (x ++ y) k =
      match lookupKey x k with
      | some v => some v
      | none => lookupKey y k := by
  induction x with
  | nil => simp [lookupKey_nil]
  | cons p t ih =>
      rw [List.cons_append, lookupKey_cons, lookupKey_cons]
      by_cases h : p.1 = k
      · simp [h]
      · simp [h, ih]

theorem lookupKey_mergeMap (a b : List (String × JSValue)) (k : String) :
    lookupKey (a.map (fun p =>
        match lookupKey b p.1 with
        | some v => (p.1, v)
        | none => p)) k =
      match lookupKey a k with
      | some v =>
          some (match lookupKey b k with
                | some w => w
                | none => v)
      | none => none := by
  induction a with
  | nil => simp [lookupKey_nil]
  | cons p t ih =>
      rw [List.map_cons, lookupKey_cons]
      by_cases h : p.1 = k
      · subst h
        cases hb : lookupKey b p.1 <;>
          simp [lookupKey_cons, hb]
      · cases hb : lookupKey b p.1 <;>
          simp [lookupKey_cons, hb, h, ih]

theorem lookupKey_filter_not_contains (a b : List (String × JSValue))
    (k : String) :
    lookupKey (b.filter (fun p => ! containsKey a p.1)) k =
      if containsKey a k then none else lookupKey b k := by
  induction b with
  | nil => simp [lookupKey_nil]
  | cons p t ih =>
      by_cases h : p.1 = k
      · subst h
        cases hc : containsKey a p.1 <;>
          simp [List.filter_cons, hc, lookupKey_cons, ih]
      · cases hc : containsKey a p.1 <;>
          cases hck : containsKey a k <;>
            simp [List.filter_cons, hc, hck, lookupKey_cons, h, ih]

/-- The defining property of the spread merge: a lookup in
`\x7b...a, ...b\x7d` sees `b`'s binding when present and otherwise
`a`'s. -/
theorem lookupKey_mergeObj (a b : List (String × JSValue)) (k : String) :
    lookupKey (mergeObj a b) k =
      match lookupKey b k with
      | some v => some v
      | none => lookupKey a k := by
  unfold mergeObj
  rw [lookupKey_append, lookupKey_mergeMap, lookupKey_filter_not_contains,
    containsKey_eq_isSome_lookupKey]
  cases ha : lookupKey a k <;> cases hb : lookupKey b k <;> simp

/-- Spreading into an empty object copies the object:
`\x7b...b\x7d = b` when the left part is empty. -/
theorem mergeObj_nil_left (b : List (String × JSValue)) :
    mergeObj [] b = b := by
  unfold mergeObj
  rw [List.map_nil, List.nil_append]
  induction b with
  | nil => rfl
  | cons p t ih => rw [List.filter_cons]; simp [containsKey_nil, ih]

/- ### Data model (src/types.ts, src/main.ts) -/

/-- Connection configuration (`DatabaseConfig`, src/types.ts): base URL,
data source, database name and API key; immutable, supplied once to the
dispatcher factory. -/
structure DatabaseConfig where
  baseUrl : String
  dataSource : String
  database : String
  apiKey : String

/-- The request descriptor class `MongoDBRequest` (src/main.ts).
`endpoint` starts as `null` (here `none`); the compile-time restriction
of endpoints to the `BasicEndpoints` string-literal union is a typing
matter and endpoints are embedded as strings.  `baseQuery` is the
private `#baseQuery` backing field.  The `headers` field: the class in
src/main.ts declares no such member, but the test suite
(src/tests/main.test.ts) assigns and reads `dbRequest.headers` as a
plain property and expects dispatch to forward it, so it is kept in the
descriptor state here; `sendDBRequest` in src/main.ts never reads it. -/
structure MongoDBRequest where
  endpoint : Option String
  baseQuery : List (String × JSValue)
  query : List (String × JSValue)
  headers : List (String × String)

/-- A freshly constructed `MongoDBRequest`: `endpoint = null`, empty
base query, empty query, no headers. -/
def MongoDBRequest.new : MongoDBRequest :=
  ⟨none, [], [], []⟩

/-- The `baseQuery` setter (src/main.ts):
`this.#baseQuery = \x7b...this.#baseQuery, ...newBaseQuery\x7d` —
the new mapping is spread-merged into the current one. -/
def MongoDBRequest.setBaseQuery (r : MongoDBRequest)
    (newBaseQuery : List (String × JSValue)) : MongoDBRequest :=
  ⟨r.endpoint, mergeObj r.baseQuery newBaseQuery, r.query, r.headers⟩

/-- Assignment to the public `query` field (src/main.ts): a plain field
write, replacing the stored per-call query wholesale. -/
def MongoDBRequest.setQuery (r : MongoDBRequest)
    (q : List (String × JSValue)) : MongoDBRequest :=
  ⟨r.endpoint, r.baseQuery, q, r.headers⟩

/-- Assignment to the `endpoint` field (src/main.ts): a plain field
write. -/
def MongoDBRequest.setEndpoint (r : MongoDBRequest)
    (ep : Option String) : MongoDBRequest :=
  ⟨ep, r.baseQuery, r.query, r.headers⟩

/-- The derived `fullQuery` getter (src/main.ts):
`\x7b...this.baseQuery, ...this.query\x7d`, computed afresh on each
read. -/
def MongoDBRequest.fullQuery (r : MongoDBRequest) :
    List (String × JSValue) :=
  mergeObj r.baseQuery r.query

/-- `isExistQuery` (src/main.ts): `Object.keys(query).length > 0`. -/
def isExistQuery (query : List (String × JSValue)) : Bool :=
  decide (0 < query.length)

/-- JavaScript truthiness test `!request.endpoint` applied to the
`endpoint` field: true exactly for `null` and for the empty string. -/
def endpointFalsy : Option String → Bool
  | none => true
  | some s => s.isEmpty

/- ### Transport boundary and error taxonomy -/

/-- The options object passed to `fetch` (`RequestInit`): method,
headers mapping, serialized body. -/
structure RequestInit where
  method : String
  headers : List (String × String)
  body : String

/-- Behaviour of one transport call, covering `fetch` and the
subsequent `response.json()`: the fetch promise rejects with a thrown
value, or resolves to a response with an HTTP status code whose body
either parses to a JSON value or fails to parse (throwing a value). -/
inductive FetchOutcome where
  | reject (err : JSValue)
  | resolve (status : Nat) (jsonBody : Except JSValue JSValue)

/-- Result of one `sendDBRequest` invocation.  `ok` is the parsed JSON
returned on success; `missingParameterError` is a thrown
`MRHMissingParameterError` carrying the parameter name; `requestError`
is a thrown `MRHRequestError` carrying its three constructor arguments
`endpoint`, `query` and `mongoErrorMessage`.  The source declares
`mongoErrorMessage: string`, but the call site in the catch block
passes the raw caught value, so the field is embedded at `JSValue`. -/
inductive DispatchOutcome where
  | ok (result : JSValue)
  | missingParameterError (parameter : String)
  | requestError (endpoint : String) (query : List (String × JSValue))
      (mongoErrorMessage : JSValue)

/-- Whether the outcome is a thrown `MRHRequestError`. -/
def DispatchOutcome.isRequestError : DispatchOutcome → Bool
  | .requestError _ _ _ => true
  | _ => false

/-- The `mongoErrorMessage` field of a thrown `MRHRequestError`, when
the outcome is one. -/
def DispatchOutcome.mongoErrorMessageOf : DispatchOutcome → Option JSValue
  | .requestError _ _ m => some m
  | _ => none

/-- Message composed by the `MRHMissingParameterError` constructor
(src/main.ts). -/
def mrhMissingParameterErrorMessage (parameter : String) : String :=
  "Error: Missing required parameter: " ++ parameter

/-- Message composed by the `MRHRequestError` constructor (src/main.ts).
The template is
`Error: Database request failed $\x7bmongoErrorMessage\x7d`, a newline,
`Endpoint: $\x7bendpoint\x7d`, then — because the source writes the
invalid escape `\Query`, which cooks to the bare characters `Query` —
`Query: $\x7bJSON.stringify(query)\x7d` with no separator after the
endpoint. -/
def mrhRequestErrorMessage (endpoint : String)
    (query : List (String × JSValue)) (raw : JSValue) : String :=
  "Error: Database request failed " ++ jsTemplateString raw
    ++ "\nEndpoint: " ++ endpoint ++ "Query: " ++ stringify (.obj query)

/- ### The dispatcher (createSendDBRequestFunction / sendDBRequest) -/

/-- The target URL: `baseUrl + request.endpoint`. -/
def buildUrl (cfg : DatabaseConfig) (ep : String) : String :=
  cfg.baseUrl ++ ep

/-- The outgoing body object built by `sendDBRequest`:
`\x7b dataSource, database, ...request.fullQuery \x7d`. -/
def buildBodyObject (cfg : DatabaseConfig) (request : MongoDBRequest) :
    List (String × JSValue) :=
  mergeObj
    [("dataSource", .str cfg.dataSource), ("database", .str cfg.database)]
    request.fullQuery

/-- The `requestInit` literal of `sendDBRequest`: method POST, exactly
the two headers `Content-Type: application/json` and
`api-key: <configured>`, and the JSON-serialized body object. -/
def buildRequestInit (cfg : DatabaseConfig) (request : MongoDBRequest) :
    RequestInit :=
  ⟨"POST",
   [("Content-Type", "application/json"), ("api-key", cfg.apiKey)],
   stringify (.obj (buildBodyObject cfg request))⟩

/-- What one invocation of `sendDBRequest` produced: the outcome (return
value or thrown error), the transport calls it issued in order, and the
descriptor state when the call ends. -/
structure DispatchResult where
  outcome : DispatchOutcome
  calls : List (String × RequestInit)
  requestAfter : MongoDBRequest

/-- The dispatch function returned by `createSendDBRequestFunction`
(src/main.ts), with the injected transport made explicit.  Statement by
statement: throw `MRHMissingParameterError("Endpoint")` when
`!request.endpoint`; throw `MRHMissingParameterError("Query")` when
`!isExistQuery(request.fullQuery)`; build the URL, the body object and
`requestInit`; inside `try`, await `fetch(url, requestInit)` and
`response.json()` and return the parsed value; in `catch`, throw
`new MRHRequestError(request.endpoint, request.fullQuery, error)` with
the raw caught value.  Both a rejected fetch and a failed
`response.json()` land in the catch block; the HTTP status is never
inspected.  The descriptor is only read, never written. -/
def sendDBRequest (cfg : DatabaseConfig) (request : MongoDBRequest)
    (fetchF : String → RequestInit → FetchOutcome) : DispatchResult :=
  match request.endpoint with
  | none => ⟨.missingParameterError "Endpoint", [], request⟩
  | some ep =>
      if ep.isEmpty then
        ⟨.missingParameterError "Endpoint", [], request⟩
      else if ! isExistQuery request.fullQuery then
        ⟨.missingParameterError "Query", [], request⟩
      else
        match fetchF (buildUrl cfg ep) (buildRequestInit cfg request) with
        | .reject e =>
            ⟨.requestError ep request.fullQuery e,
             [(buildUrl cfg ep, buildRequestInit cfg request)], request⟩
        | .resolve _status (.error e) =>
            ⟨.requestError ep request.fullQuery e,
             [(buildUrl cfg ep, buildRequestInit cfg request)], request⟩
        | .resolve _status (.ok v) =>
            ⟨.ok v, [(buildUrl cfg ep, buildRequestInit cfg request)],
             request⟩

/- ### Characterization of the three dispatch paths -/

theorem sendDBRequest_eq_missing_endpoint (cfg : DatabaseConfig)
    (r : MongoDBRequest) (f : String → RequestInit → FetchOutcome)
    (h : endpointFalsy r.endpoint = true) :
    sendDBRequest cfg r f = ⟨.missingParameterError "Endpoint", [], r⟩ := by
  unfold sendDBRequest
  cases hep : r.endpoint with
  | none => rfl
  | some ep =>
      rw [hep] at h
      have hE : ep.isEmpty = true := by simpa [endpointFalsy] using h
      simp [hE]

theorem sendDBRequest_eq_missing_query (cfg : DatabaseConfig)
    (r : MongoDBRequest) (f : String → RequestInit → FetchOutcome)
    (h1 : endpointFalsy r.endpoint = false)
    (h2 : isExistQuery r.fullQuery = false) :
    sendDBRequest cfg r f = ⟨.missingParameterError "Query", [], r⟩ := by
  unfold sendDBRequest
  cases hep : r.endpoint with
  | none => rw [hep] at h1; simp [endpointFalsy] at h1
  | some ep =>
      rw [hep] at h1
      have hE : ep.isEmpty = false := by simpa [endpointFalsy] using h1
      simp [hE, h2]

theorem sendDBRequest_valid (cfg : DatabaseConfig) (r : MongoDBRequest)
    (f : String → RequestInit → FetchOutcome) (ep : String)
    (hep : r.endpoint = some ep) (hE : ep.isEmpty = false)
    (hq : isExistQuery r.fullQuery = true) :
    sendDBRequest cfg r f =
      match f (buildUrl cfg ep) (buildRequestInit cfg r) with
      | .reject e =>
          ⟨.requestError ep r.fullQuery e,
           [(buildUrl cfg ep, buildRequestInit cfg r)], r⟩
      | .resolve _ (.error e) =>
          ⟨.requestError ep r.fullQuery e,
           [(buildUrl cfg ep, buildRequestInit cfg r)], r⟩
      | .resolve _ (.ok v) =>
          ⟨.ok v, [(buildUrl cfg ep, buildRequestInit cfg r)], r⟩ := by
  unfold sendDBRequest
  rw [hep]
  simp [hE, hq]

/- ### Concrete instances used by witnesses and counterexamples -/

/-- A concrete connection configuration (the shape the repo's own test
settings use). -/
def sampleConfig : DatabaseConfig :=
  ⟨"https://example.test/api", "Cluster0", "sample_mflix", "secret"⟩

/-- A transport that accepts every call: status 200, body `null`. -/
def fetchOk : String → RequestInit → FetchOutcome :=
  fun _ _ => .resolve 200 (.ok .null)

/-- A transport whose fetch promise always rejects with
`Error("Fetch failed")` — the stub of the repo's error-handling test. -/
def fetchRejecting : String → RequestInit → FetchOutcome :=
  fun _ _ => .reject (.error "Error" "Fetch failed")

/-- A transport whose fetch resolves but whose body fails JSON parsing,
so `response.json()` throws a `SyntaxError`. -/
def fetchBadBody : String → RequestInit → FetchOutcome :=
  fun _ _ => .resolve 200 (.error (.error "SyntaxError" "Unexpected token"))

/-- A transport answering 404 with a JSON error body. -/
def fetchNotFoundJson : String → RequestInit → FetchOutcome :=
  fun _ _ => .resolve 404 (.ok (.obj [("err", .str "not found")]))

/-- The spec's running example: endpoint `/find`, per-call query
`\x7bcollection: "books"\x7d`. -/
def booksRequest : MongoDBRequest :=
  ⟨some "/find", [], [("collection", .str "books")], []⟩

/-- A `/find` descriptor on collection `comments`. -/
def commentsRequest : MongoDBRequest :=
  ⟨some "/find", [], [("collection", .str "comments")], []⟩

/-- A `/find` descriptor on collection `books` that also carries a
custom header, as in the repo's headers test. -/
def headersRequest : MongoDBRequest :=
  ⟨some "/find", [], [("collection", .str "books")], [("X-Custom", "v")]⟩

/-- A descriptor whose base query and per-call query collide on the key
`collection`. -/
def collideRequest : MongoDBRequest :=
  ⟨some "/find", [("collection", .str "x")], [("collection", .str "y")], []⟩

/- ### Claim theorems -/

/-- C1: dispatch validates its preconditions in a fixed order with the
first failure winning — an unset (null or empty) endpoint fails with
Missing-Parameter "Endpoint" regardless of the query state, and only a
set endpoint with an empty effective query fails with Missing-Parameter
"Query". -/
theorem sendDBRequest_validation_order (cfg : DatabaseConfig)
    (r : MongoDBRequest) (f : String → RequestInit → FetchOutcome) :
    (endpointFalsy r.endpoint = true →
      (sendDBRequest cfg r f).outcome = .missingParameterError "Endpoint") ∧
    (endpointFalsy r.endpoint = false → isExistQuery r.fullQuery = false →
      (sendDBRequest cfg r f).outcome = .missingParameterError "Query") ∧
    (∀ p, (sendDBRequest cfg r f).outcome = .missingParameterError p →
      (p = "Endpoint" ∧ endpointFalsy r.endpoint = true) ∨
      (p = "Query" ∧ endpointFalsy r.endpoint = false ∧
        isExistQuery r.fullQuery = false)) := by
  refine ⟨fun h => ?_, fun h1 h2 => ?_, fun p hp => ?_⟩
  · rw [sendDBRequest_eq_missing_endpoint cfg r f h]
  · rw [sendDBRequest_eq_missing_query cfg r f h1 h2]
  · cases hF : endpointFalsy r.endpoint with
    | true =>
        left
        rw [sendDBRequest_eq_missing_endpoint cfg r f hF] at hp
        injection hp with h'
        exact ⟨h'.symm, rfl⟩
    | false =>
        cases hQ : isExistQuery r.fullQuery with
        | false =>
            right
            rw [sendDBRequest_eq_missing_query cfg r f hF hQ] at hp
            injection hp with h'
            exact ⟨h'.symm, rfl, rfl⟩
        | true =>
            obtain ⟨ep, hep⟩ : ∃ ep, r.endpoint = some ep := by
              cases hepc : r.endpoint with
              | none => rw [hepc] at hF; simp [endpointFalsy] at hF
              | some ep => exact ⟨ep, rfl⟩
            have hE : ep.isEmpty = false := by
              rw [hep] at hF; simpa [endpointFalsy] using hF
            rw [sendDBRequest_valid cfg r f ep hep hE hQ] at hp
            cases hfc : f (buildUrl cfg ep) (buildRequestInit cfg r) with
            | reject e =>
                rw [hfc] at hp
                exact DispatchOutcome.noConfusion hp
            | resolve st jb =>
                cases jb <;>
                  (rw [hfc] at hp; exact DispatchOutcome.noConfusion hp)

/-- Witness for C1: on a fresh descriptor the Endpoint error wins even
though the query is also empty; with only the endpoint set, the Query
error is raised. -/
theorem sendDBRequest_validation_order_witness :
    (sendDBRequest sampleConfig MongoDBRequest.new fetchOk).outcome
      = .missingParameterError "Endpoint" ∧
    (sendDBRequest sampleConfig
        (MongoDBRequest.new.setEndpoint (some "/find")) fetchOk).outcome
      = .missingParameterError "Query" :=
  ⟨(sendDBRequest_validation_order sampleConfig MongoDBRequest.new
      fetchOk).1 rfl,
   (sendDBRequest_validation_order sampleConfig
      (MongoDBRequest.new.setEndpoint (some "/find")) fetchOk).2.1 rfl rfl⟩

/-- C2: reading the effective query returns the one-level shallow merge
of the base query and the per-call query, and on every shared key the
per-call query's value wins. -/
theorem fullQuery_shallow_merge (r : MongoDBRequest) (k : String) :
    r.fullQuery = mergeObj r.baseQuery r.query ∧
    lookupKey r.fullQuery k =
      (match lookupKey r.query k with
       | some v => some v
       | none => lookupKey r.baseQuery k) ∧
    (∀ v, lookupKey r.query k = some v →
      lookupKey r.fullQuery k = some v) := by
  refine ⟨rfl, lookupKey_mergeObj _ _ _, fun v hv => ?_⟩
  rw [MongoDBRequest.fullQuery, lookupKey_mergeObj, hv]

/-- Witness for C2: with base query `collection: "x"` and per-call
query `collection: "y"`, the effective query maps `collection` to
`"y"`. -/
theorem fullQuery_shallow_merge_witness :
    lookupKey collideRequest.query "collection" = some (.str "y") ∧
    lookupKey collideRequest.fullQuery "collection" = some (.str "y") :=
  ⟨rfl, (fullQuery_shallow_merge collideRequest "collection").2.2
      (.str "y") rfl⟩

/-- C3: two successive `baseQuery` assignments on a fresh descriptor
leave the right-biased one-level shallow merge of the two mappings
(the second mapping's bindings, nested objects included, overwrite
same-named ones wholesale), whereas assigning `query` replaces the
stored per-call query entirely. -/
theorem baseQuery_accumulates_query_replaces
    (A B q : List (String × JSValue)) (r : MongoDBRequest) :
    ((MongoDBRequest.new.setBaseQuery A).setBaseQuery B).baseQuery
      = mergeObj A B ∧
    (∀ k v, lookupKey B k = some v →
      lookupKey (((MongoDBRequest.new.setBaseQuery A).setBaseQuery
        B).baseQuery) k = some v) ∧
    (r.setQuery q).query = q := by
  have h : ((MongoDBRequest.new.setBaseQuery A).setBaseQuery B).baseQuery
      = mergeObj A B := by
    show mergeObj (mergeObj [] A) B = mergeObj A B
    rw [mergeObj_nil_left]
  refine ⟨h, fun k v hv => ?_, rfl⟩
  rw [h, lookupKey_mergeObj, hv]

/-- Witness for C3: `baseQuery = \x7bcollection: "x"\x7d` then
`baseQuery = \x7bcollection: \x7bname: "y"\x7d\x7d` stores the nested
object wholesale under `collection`. -/
theorem baseQuery_accumulates_query_replaces_witness :
    lookupKey [("collection", JSValue.obj [("name", .str "y")])]
        "collection" = some (.obj [("name", .str "y")]) ∧
    lookupKey (((MongoDBRequest.new.setBaseQuery
          [("collection", .str "x")]).setBaseQuery
          [("collection", .obj [("name", .str "y")])]).baseQuery)
        "collection" = some (.obj [("name", .str "y")]) :=
  ⟨rfl,
   (baseQuery_accumulates_query_replaces [("collection", .str "x")]
      [("collection", .obj [("name", .str "y")])] [] MongoDBRequest.new).2.1
     "collection" (.obj [("name", .str "y")]) rfl⟩

/-- C4: a valid dispatch issues exactly one POST to
`baseUrl ++ endpoint` whose JSON body is the serialization of the
configured `dataSource` and `database` fields spread-merged with the
effective query, the effective query winning on any key collision with
the two injected fields. -/
theorem sendDBRequest_single_post_body (cfg : DatabaseConfig)
    (r : MongoDBRequest) (f : String → RequestInit → FetchOutcome)
    (ep : String) (hep : r.endpoint = some ep) (hE : ep.isEmpty = false)
    (hq : isExistQuery r.fullQuery = true) :
    (sendDBRequest cfg r f).calls
      = [(buildUrl cfg ep, buildRequestInit cfg r)] ∧
    buildUrl cfg ep = cfg.baseUrl ++ ep ∧
    (buildRequestInit cfg r).method = "POST" ∧
    (buildRequestInit cfg r).body =
      stringify (.obj (mergeObj
        [("dataSource", .str cfg.dataSource),
         ("database", .str cfg.database)]
        r.fullQuery)) ∧
    (∀ k v, lookupKey r.fullQuery k = some v →
      lookupKey (buildBodyObject cfg r) k = some v) := by
  refine ⟨?_, rfl, rfl, rfl, fun k v hv => ?_⟩
  · rw [sendDBRequest_valid cfg r f ep hep hE hq]
    cases f (buildUrl cfg ep) (buildRequestInit cfg r) with
    | reject e => rfl
    | resolve st jb => cases jb <;> rfl
  · rw [buildBodyObject, lookupKey_mergeObj, hv]

/-- Witness for C4: the spec's example — endpoint `/find`, query
`\x7bcollection: "books"\x7d` — performs one POST whose body serializes
the merged object. -/
theorem sendDBRequest_single_post_body_witness :
    booksRequest.endpoint = some "/find" ∧
    (sendDBRequest sampleConfig booksRequest fetchOk).calls
      = [(buildUrl sampleConfig "/find",
          buildRequestInit sampleConfig booksRequest)] ∧
    (buildRequestInit sampleConfig booksRequest).method = "POST" :=
  ⟨rfl,
   (sendDBRequest_single_post_body sampleConfig booksRequest fetchOk
      "/find" rfl rfl rfl).1,
   (sendDBRequest_single_post_body sampleConfig booksRequest fetchOk
      "/find" rfl rfl rfl).2.2.1⟩

/-- The outgoing body of the spec's example evaluates to exactly the
expected JSON text (testable property 5 of the spec). -/
theorem booksRequest_outgoing_body :
    (buildRequestInit sampleConfig booksRequest).body
      = "\x7b\"dataSource\":\"Cluster0\",\"database\":\"sample_mflix\",\"collection\":\"books\"\x7d" :=
  rfl

/-- C5: against the claim, `sendDBRequest` in src/main.ts never reads
the descriptor's headers: with `headers = \x7bX-Custom: "v"\x7d` the
outgoing headers of the one POST are exactly the two mandatory ones and
the custom header is absent.  The repo's own test
(src/tests/main.test.ts, "should include custom headers in the
request") asserts the merged headers instead, so the code contradicts
its test suite. -/
theorem sendDBRequest_drops_descriptor_headers :
    headersRequest.headers = [("X-Custom", "v")] ∧
    ((sendDBRequest sampleConfig headersRequest fetchOk).calls.map
        (fun c => c.2.headers))
      = [[("Content-Type", "application/json"), ("api-key", "secret")]] :=
  ⟨rfl, rfl⟩

/-- C6: against the claim, the catch block of `sendDBRequest` passes
the raw caught value — not its `.message` string — to the
`MRHRequestError` constructor, although the constructor declares
`mongoErrorMessage: string`: on a transport rejection with
`Error("Fetch failed")` the `mongoErrorMessage` field holds the Error
object itself (not a string), and the composed message embeds its
template conversion `Error: Fetch failed` rather than the bare message.
The endpoint and the effective query are carried as the claim says. -/
theorem sendDBRequest_requestError_carries_raw_error :
    (sendDBRequest sampleConfig commentsRequest fetchRejecting).outcome
      = .requestError "/find" [("collection", .str "comments")]
          (.error "Error" "Fetch failed") ∧
    DispatchOutcome.mongoErrorMessageOf
        (sendDBRequest sampleConfig commentsRequest fetchRejecting).outcome
      = some (.error "Error" "Fetch failed") ∧
    JSValue.isString (.error "Error" "Fetch failed") = false ∧
    mrhRequestErrorMessage "/find" [("collection", .str "comments")]
        (.error "Error" "Fetch failed")
      = "Error: Database request failed Error: Fetch failed\nEndpoint: /findQuery: \x7b\"collection\":\"comments\"\x7d" :=
  ⟨rfl, rfl, rfl, rfl⟩

/-- Counterexample to C7: on a valid dispatch whose transport call
succeeds but whose body fails to parse as JSON, the parse failure is
caught by the try/catch of `sendDBRequest` and reclassified as an
`MRHRequestError` — not propagated as a generic, unclassified
failure. -/
theorem parse_failure_becomes_requestError :
    (sendDBRequest sampleConfig booksRequest fetchBadBody).outcome
      = .requestError "/find" [("collection", .str "books")]
          (.error "SyntaxError" "Unexpected token") ∧
    ((sendDBRequest sampleConfig booksRequest
        fetchBadBody).outcome).isRequestError = true :=
  ⟨rfl, rfl⟩

/-- C7 (amended): a JSON-parse failure of the response body is caught
by dispatch and reclassified as a Request-Error carrying the endpoint,
the effective query, and the thrown parse-error value. -/
theorem sendDBRequest_parse_failure_wrapped (cfg : DatabaseConfig)
    (r : MongoDBRequest) (f : String → RequestInit → FetchOutcome)
    (ep : String) (status : Nat) (e : JSValue)
    (hep : r.endpoint = some ep) (hE : ep.isEmpty = false)
    (hq : isExistQuery r.fullQuery = true)
    (hf : f (buildUrl cfg ep) (buildRequestInit cfg r)
      = .resolve status (.error e)) :
    (sendDBRequest cfg r f).outcome = .requestError ep r.fullQuery e := by
  rw [sendDBRequest_valid cfg r f ep hep hE hq, hf]

/-- Witness for the amended C7. -/
theorem sendDBRequest_parse_failure_wrapped_witness :
    (sendDBRequest sampleConfig booksRequest fetchBadBody).outcome
      = .requestError "/find" booksRequest.fullQuery
          (.error "SyntaxError" "Unexpected token") :=
  sendDBRequest_parse_failure_wrapped sampleConfig booksRequest
    fetchBadBody "/find" 200 (.error "SyntaxError" "Unexpected token")
    rfl rfl rfl rfl

/-- C8: on a valid dispatch whose transport call succeeds and whose
body parses as JSON, dispatch returns the parsed JSON as a success
value whatever the HTTP status code is — a non-2xx status with a valid
JSON body is not classified as an error. -/
theorem sendDBRequest_ok_ignores_status (cfg : DatabaseConfig)
    (r : MongoDBRequest) (f : String → RequestInit → FetchOutcome)
    (ep : String) (status : Nat) (v : JSValue)
    (hep : r.endpoint = some ep) (hE : ep.isEmpty = false)
    (hq : isExistQuery r.fullQuery = true)
    (hf : f (buildUrl cfg ep) (buildRequestInit cfg r)
      = .resolve status (.ok v)) :
    (sendDBRequest cfg r f).outcome = .ok v := by
  rw [sendDBRequest_valid cfg r f ep hep hE hq, hf]

/-- Witness for C8: a 404 response with a JSON error body is returned
as a success value. -/
theorem sendDBRequest_ok_ignores_status_witness :
    (sendDBRequest sampleConfig booksRequest fetchNotFoundJson).outcome
      = .ok (.obj [("err", .str "not found")]) :=
  sendDBRequest_ok_ignores_status sampleConfig booksRequest
    fetchNotFoundJson "/find" 404 (.obj [("err", .str "not found")])
    rfl rfl rfl rfl

/-- C9: whenever dispatch fails with a Missing-Parameter error, the
transport primitive is never invoked — the list of network calls made
during that invocation is empty. -/
theorem sendDBRequest_missingParameter_no_fetch (cfg : DatabaseConfig)
    (r : MongoDBRequest) (f : String → RequestInit → FetchOutcome)
    (p : String)
    (hp : (sendDBRequest cfg r f).outcome = .missingParameterError p) :
    (sendDBRequest cfg r f).calls = [] := by
  cases hF : endpointFalsy r.endpoint with
  | true => rw [sendDBRequest_eq_missing_endpoint cfg r f hF]
  | false =>
      cases hQ : isExistQuery r.fullQuery with
      | false => rw [sendDBRequest_eq_missing_query cfg r f hF hQ]
      | true =>
          exfalso
          obtain ⟨ep, hep⟩ : ∃ ep, r.endpoint = some ep := by
            cases hepc : r.endpoint with
            | none => rw [hepc] at hF; simp [endpointFalsy] at hF
            | some ep => exact ⟨ep, rfl⟩
          have hE : ep.isEmpty = false := by
            rw [hep] at hF; simpa [endpointFalsy] using hF
          rw [sendDBRequest_valid cfg r f ep hep hE hQ] at hp
          cases hfc : f (buildUrl cfg ep) (buildRequestInit cfg r) with
          | reject e =>
              rw [hfc] at hp
              exact DispatchOutcome.noConfusion hp
          | resolve st jb =>
              cases jb <;>
                (rw [hfc] at hp; exact DispatchOutcome.noConfusion hp)

/-- Witness for C9: the fresh-descriptor dispatch (Missing-Parameter
"Endpoint") makes no transport call. -/
theorem sendDBRequest_missingParameter_no_fetch_witness :
    (sendDBRequest sampleConfig MongoDBRequest.new fetchOk).calls = [] :=
  sendDBRequest_missingParameter_no_fetch sampleConfig MongoDBRequest.new
    fetchOk "Endpoint" rfl

/-- C10: dispatch only reads the descriptor — after any invocation,
whatever the outcome, the descriptor state (endpoint, stored base
query, stored per-call query) is unchanged. -/
theorem sendDBRequest_preserves_descriptor (cfg : DatabaseConfig)
    (r : MongoDBRequest) (f : String → RequestInit → FetchOutcome) :
    (sendDBRequest cfg r f).requestAfter = r ∧
    (sendDBRequest cfg r f).requestAfter.endpoint = r.endpoint ∧
    (sendDBRequest cfg r f).requestAfter.baseQuery = r.baseQuery ∧
    (sendDBRequest cfg r f).requestAfter.query = r.query := by
  have h : (sendDBRequest cfg r f).requestAfter = r := by
    unfold sendDBRequest
    cases r.endpoint with
    | none => rfl
    | some ep =>
        by_cases hE : ep.isEmpty
        · simp [hE]
        · by_cases hq : isExistQuery (MongoDBRequest.fullQuery r)
          · cases hfc : f (buildUrl cfg ep) (buildRequestInit cfg r) with
            | reject e => simp [hE, hq, hfc]
            | resolve st jb => cases jb <;> simp [hE, hq, hfc]
          · simp [hE, hq]
  exact ⟨h, by rw [h], by rw [h], by rw [h]⟩
